import Mathlib

set_option maxHeartbeats 1000000

/- Shallow embedding of the backup-system core (src/src): BackupManager,
   StorageHandler, BackupOrchestrator and BackupScheduler. Timestamps are
   POSIX seconds modelled as integers. External effects (the file system,
   dump and restore commands, network targets, gzip) are modelled as
   explicit inputs describing the outcome the external world produces. -/

/-! ## Kernel-friendly string helpers

Python uses str.startswith, str.endswith and str.replace on file names.
These are re-implemented structurally over the character list so that
concrete instances evaluate. -/

/-- Boolean test that pre is a prefix of s, as Python str.startswith. -/
def pyStartsWith (s pre : String) : Bool :=
  pre.data.isPrefixOf s.data

/-- Boolean test that suf is a suffix of s, as Python str.endswith. -/
def pyEndsWith (s suf : String) : Bool :=
  suf.data.reverse.isPrefixOf s.data.reverse

/-- Removes every occurrence of the three characters ".gz", scanning left to
right without overlap, as Python replace with an empty replacement does. -/
def removeGzOcc : List Char → List Char
  | [] => []
  | '.' :: 'g' :: 'z' :: rest => removeGzOcc rest
  | c :: rest => c :: removeGzOcc rest

/-- The default output name of BackupManager.decompress_file
(backup_manager.py line 63): the input name with ".gz" removed everywhere. -/
def pyRemoveGz (s : String) : String :=
  ⟨removeGzOcc s.data⟩

/-! ## BackupManager.verify_backup (backup_manager.py lines 183-203)

A stored file is described by its byte size and by whether reading one
byte back through the gzip container succeeds. -/

structure StoredFile where
  size : Nat
  gzipReadOk : Bool
deriving DecidableEq

/-- Association-list view of the directory used by verify_backup. -/
def lookupFile : List (String × StoredFile) → String → Option StoredFile
  | [], _ => none
  | (p, f) :: rest, q => if p = q then some f else lookupFile rest q

/-- BackupManager.verify_backup: false when the file is missing, when its
size is zero, or when it is a gz file whose read-back raises (the raise is
caught by the surrounding handler which returns False). -/
def verify_backup (fs : List (String × StoredFile)) (backup_file : String) : Bool :=
  match lookupFile fs backup_file with
  | none => false
  | some f =>
    if f.size = 0 then false
    else if pyEndsWith backup_file ".gz" then f.gzipReadOk
    else true

/-! ## StorageHandler.upload_backup (storage_handler.py lines 13-29)

Each target is a configuration flag plus the boolean outcome its upload
attempt would produce; every per-target helper in the source catches its
own exceptions and returns a boolean. -/

structure TargetConfig where
  enabled : Bool
  uploadOk : Bool
deriving DecidableEq

structure StorageConfig where
  localT : TargetConfig
  ftp : TargetConfig
  sftp : TargetConfig
deriving DecidableEq

structure UploadRun where
  results : List (String × Bool)
  attempted : List String
deriving DecidableEq

/-- StorageHandler.upload_backup: when the local file is missing it returns
the one-entry mapping from the key "error" to False and attempts nothing;
otherwise each enabled target is attempted independently and its outcome
recorded under its own key. -/
def upload_backup (cfg : StorageConfig) (fileExists : Bool) : UploadRun :=
  if fileExists = false then
    { results := [("error", false)], attempted := [] }
  else
    { results :=
        (if cfg.localT.enabled then [("local", cfg.localT.uploadOk)] else []) ++
        (if cfg.ftp.enabled then [("ftp", cfg.ftp.uploadOk)] else []) ++
        (if cfg.sftp.enabled then [("sftp", cfg.sftp.uploadOk)] else [])
    , attempted :=
        (if cfg.localT.enabled then ["local"] else []) ++
        (if cfg.ftp.enabled then ["ftp"] else []) ++
        (if cfg.sftp.enabled then ["sftp"] else []) }

/-! ## BackupManager.list_backups and cleanup_old_backups
(backup_manager.py lines 115-166)

The directory is a list of entries carrying a file name and a creation
time; list_backups filters names ending in ".sql" or ".sql.gz", applies
the optional database prefix filter, joins the name onto the configured
local path and sorts by creation time descending. -/

structure BackupConfig where
  local_path : String
  retention_days : Nat
  max_backups : Nat
deriving DecidableEq

structure DirEntry where
  filename : String
  created : Int
deriving DecidableEq

structure Backup where
  filename : String
  path : String
  created : Int
deriving DecidableEq

/-- Ordering used by the sort in list_backups: creation time descending. -/
def backupGE (a b : Backup) : Prop := b.created ≤ a.created

instance : DecidableRel backupGE := fun a b => Int.decLe b.created a.created

instance : IsTotal Backup backupGE := ⟨fun a b => le_total b.created a.created⟩

instance : IsTrans Backup backupGE := ⟨fun _ _ _ h1 h2 => le_trans h2 h1⟩

/-- The name filter of list_backups: suffix ".sql" or ".sql.gz", and the
optional database prefix (backup_manager.py lines 120-122). -/
def matchesFilter (database : Option String) (name : String) : Bool :=
  (pyEndsWith name ".sql" || pyEndsWith name ".sql.gz") &&
    (match database with
     | none => true
     | some d => pyStartsWith name d)

/-- BackupManager.list_backups: matching entries, as backup records, sorted
by creation time descending. -/
def list_backups (cfg : BackupConfig) (dir : List DirEntry) (database : Option String) :
    List Backup :=
  List.insertionSort backupGE
    ((dir.filter (fun e => matchesFilter database e.filename)).map
      (fun e =>
        { filename := e.filename
        , path := cfg.local_path ++ "/" ++ e.filename
        , created := e.created }))

/-- Age cutoff of cleanup_old_backups: now minus retention_days days. -/
def cutoffDate (cfg : BackupConfig) (now : Int) : Int :=
  now - (cfg.retention_days : Int) * 86400

/-- The age pass of cleanup_old_backups (backup_manager.py lines 146-150).
removeOk tells whether deleting a given path succeeds; a failing delete
raises, which escapes to the handler around the whole cleanup body, so the
pass stops there (third component true) keeping the count and removals
made so far. -/
def cleanupAge (cutoff : Int) (removeOk : String → Bool) :
    List Backup → Nat → List String → Nat × List String × Bool
  | [], count, removed => (count, removed, false)
  | b :: rest, count, removed =>
    if b.created < cutoff then
      if removeOk b.path then cleanupAge cutoff removeOk rest (count + 1) (b.path :: removed)
      else (count, removed, true)
    else cleanupAge cutoff removeOk rest count removed

/-- The excess pass of cleanup_old_backups (backup_manager.py lines
152-158), run over the entries beyond max_backups of the sorted list; a
path already removed by the age pass fails the exists check and is
skipped, and a failing delete raises as above. -/
def cleanupExcess (removeOk : String → Bool) :
    List Backup → Nat → List String → Nat × List String × Bool
  | [], count, removed => (count, removed, false)
  | b :: rest, count, removed =>
    if b.path ∈ removed then cleanupExcess removeOk rest count removed
    else if removeOk b.path then cleanupExcess removeOk rest (count + 1) (b.path :: removed)
    else (count, removed, true)

structure CleanupResult where
  count : Nat
  removed : List String
  aborted : Bool
deriving DecidableEq

/-- BackupManager.cleanup_old_backups: the age pass over the whole sorted
listing, then, when the listing holds more than max_backups entries, the
excess pass over the tail beyond max_backups. An exception in either pass
is caught by the surrounding handler, which logs and returns the count so
far (aborted records that the handler fired). -/
def cleanup_old_backups (cfg : BackupConfig) (dir : List DirEntry) (database : Option String)
    (now : Int) (removeOk : String → Bool) : CleanupResult :=
  let backups := list_backups cfg dir database
  let cutoff := cutoffDate cfg now
  match cleanupAge cutoff removeOk backups 0 [] with
  | (c1, r1, true) => { count := c1, removed := r1, aborted := true }
  | (c1, r1, false) =>
    if backups.length > cfg.max_backups then
      match cleanupExcess removeOk (backups.drop cfg.max_backups) c1 r1 with
      | (c2, r2, ab) => { count := c2, removed := r2, aborted := ab }
    else { count := c1, removed := r1, aborted := false }

/-- The artifacts surviving a cleanup run: the listed backups whose path
was not removed. -/
def survivorsAfterCleanup (cfg : BackupConfig) (dir : List DirEntry) (database : Option String)
    (now : Int) (removeOk : String → Bool) : List Backup :=
  (list_backups cfg dir database).filter
    (fun b => decide (b.path ∉ (cleanup_old_backups cfg dir database now removeOk).removed))

/-! ## BackupOrchestrator._backup_single_database
(backup_orchestrator.py lines 79-152)

The environment records the outcome each external step would produce for
one database run. Uploads go through the upload_backup model above; the
optional Google Drive upload can raise, which the orchestrator catches,
recording False for that key. -/

inductive Stage where
  | dumping
  | compressing
  | verifying
  | uploading
  | cleaning
  | notifying
deriving DecidableEq

/-- Payload of NotificationService.send_backup_notification at the two call
sites of the orchestrator: the success call carries the storage mapping,
duration, size and eviction count; the failure call carries the error
message and the duration. -/
inductive BackupNotice where
  | succeeded (database : String) (storage : List (String × Bool))
      (duration : Nat) (size_mb : Nat) (removed_old : Nat)
  | failed (database : String) (error_message : String) (duration : Nat)
deriving DecidableEq

structure PipelineEnv where
  db_connected : Bool
  dump_ok : Bool
  compression : Bool
  compress_result : Option String
  verify_ok : Bool
  backup_exists : Bool
  storage : StorageConfig
  gdrive_enabled : Bool
  gdrive_raises : Bool
  gdrive_ok : Bool
  removed_count : Nat
  size_mb : Nat
  duration : Nat
deriving DecidableEq

structure SingleRun where
  success : Bool
  notice : BackupNotice
  stages : List Stage
deriving DecidableEq

/-- The handler at the bottom of _backup_single_database: any raised stage
error lands here, a failure notification with the error text and the
elapsed duration is sent, and False is returned. -/
def failRun (database msg : String) (env : PipelineEnv) (tr : List Stage) : SingleRun :=
  { success := false
  , notice := .failed database msg env.duration
  , stages := tr ++ [Stage.notifying] }

/-- The google_drive entry added to the storage mapping when the handler is
enabled (backup_orchestrator.py lines 107-113); a raise inside the upload
is caught and recorded as False. -/
def gdriveEntry (env : PipelineEnv) : List (String × Bool) :=
  if env.gdrive_enabled then
    [("google_drive", if env.gdrive_raises then false else env.gdrive_ok)]
  else []

/-- BackupOrchestrator._backup_single_database: connection test, dump,
optional compression, verification, fan-out upload, cleanup, notification.
The first four raise on failure, jumping to the handler; upload outcomes
and cleanup are recorded without affecting success. -/
def backup_single_database (env : PipelineEnv) (database : String) : SingleRun :=
  if env.db_connected = false then
    failRun database "Database connection failed" env []
  else if env.dump_ok = false then
    failRun database "Failed to create database dump" env [Stage.dumping]
  else if env.compression && env.compress_result.isNone then
    failRun database "Compression failed" env [Stage.dumping, Stage.compressing]
  else if env.verify_ok = false then
    failRun database "Backup verification failed" env
      (Stage.dumping :: (if env.compression then [Stage.compressing] else []) ++ [Stage.verifying])
  else
    { success := true
    , notice := .succeeded database
        ((upload_backup env.storage env.backup_exists).results ++ gdriveEntry env)
        env.duration env.size_mb env.removed_count
    , stages := Stage.dumping :: (if env.compression then [Stage.compressing] else []) ++
        [Stage.verifying, Stage.uploading, Stage.cleaning, Stage.notifying] }

/-- The storage mapping reported by a run, read back from the notice. -/
def storageOutcomes (r : SingleRun) : List (String × Bool) :=
  match r.notice with
  | .succeeded _ st _ _ _ => st
  | .failed _ _ _ => []

/-! ## BackupOrchestrator.run_backup (backup_orchestrator.py lines 59-77)

The per-database results are collected into a dict keyed by database
name; dict insertion overwrites an existing key in place and otherwise
appends. -/

structure DbResult where
  status : String
  success : Bool
  database : String
deriving DecidableEq

/-- Python dict read on a string-keyed association list: the first entry
with the given key. -/
def pyDictGet : List (String × DbResult) → String → Option DbResult
  | [], _ => none
  | (k2, v2) :: rest, q => if q = k2 then some v2 else pyDictGet rest q

/-- Python dict item assignment on a string-keyed association list: an
existing key is overwritten in place, a new key is appended. -/
def dictInsert (m : List (String × DbResult)) (k : String) (v : DbResult) :
    List (String × DbResult) :=
  if m.any (fun p => decide (p.1 = k)) then m.map (fun p => if p.1 = k then (k, v) else p)
  else m ++ [(k, v)]

/-- The entry run_backup stores for one database (backup_orchestrator.py
lines 70-75). -/
def mkDbResult (envOf : String → PipelineEnv) (database : String) : DbResult :=
  { status := if (backup_single_database (envOf database) database).success
              then "success" else "error"
  , success := (backup_single_database (envOf database) database).success
  , database := database }

/-- The for loop of run_backup, processing the databases sequentially. -/
def run_backup_loop (envOf : String → PipelineEnv) :
    List String → List (String × DbResult) → List (String × DbResult)
  | [], results => results
  | db :: rest, results =>
    run_backup_loop envOf rest (dictInsert results db (mkDbResult envOf db))

/-- BackupOrchestrator.run_backup on an explicit database list: an empty
list logs a warning and returns the empty mapping; otherwise every
database is processed and its result stored. -/
def run_backup (envOf : String → PipelineEnv) (databases : List String) :
    List (String × DbResult) :=
  if databases.isEmpty then [] else run_backup_loop envOf databases []

/-! ## BackupScheduler (scheduler.py lines 8-95) -/

structure SchedulerState where
  enabled : Bool
  running : Bool
  interval : String
  backup_time : String
deriving DecidableEq

/-- What BackupScheduler.schedule_backups does with one cadence string:
install a job, or do nothing when disabled, or log an error message and
install nothing (scheduler.py lines 21-49). -/
inductive ScheduleOutcome where
  | disabledNoJobs
  | dailyJob (backup_time : String)
  | hourlyJob
  | everyHoursJob (hours : Int)
  | weeklySundayJob (backup_time : String)
  | invalidIntervalError (message : String)
  | unknownIntervalError (message : String)
deriving DecidableEq

def schedule_backups (s : SchedulerState) : ScheduleOutcome :=
  if s.enabled = false then .disabledNoJobs
  else if s.interval = "daily" then .dailyJob s.backup_time
  else if s.interval = "hourly" then .hourlyJob
  else if pyEndsWith s.interval "hours" then
    match ((s.interval.replace "hours" "").toInt?) with
    | some h => .everyHoursJob h
    | none => .invalidIntervalError ("Invalid interval format: " ++ s.interval)
  else if s.interval = "weekly" then .weeklySundayJob s.backup_time
  else .unknownIntervalError ("Unknown interval: " ++ s.interval)

def ScheduleOutcome.installsJob : ScheduleOutcome → Bool
  | .dailyJob _ => true
  | .hourlyJob => true
  | .everyHoursJob _ => true
  | .weeklySundayJob _ => true
  | _ => false

structure StartResult where
  started : Bool
  alreadyRunningWarned : Bool
  schedule : Option ScheduleOutcome
deriving DecidableEq

/-- BackupScheduler.start (scheduler.py lines 59-70): an already running
scheduler only warns; otherwise schedule_backups runs, the running flag is
set and the polling thread is started, whatever schedule_backups logged. -/
def scheduler_start (s : SchedulerState) : StartResult × SchedulerState :=
  if s.running = true then
    ({ started := false, alreadyRunningWarned := true, schedule := none }, s)
  else
    ({ started := true, alreadyRunningWarned := false
     , schedule := some (schedule_backups s) }, { s with running := true })

structure RunNowResult where
  invokedBackup : Bool
  rejected : Bool
  logs : List String
deriving DecidableEq

/-- BackupScheduler._run_backup (scheduler.py lines 51-57): logs, invokes
the backup function, and catches any exception it raises. backupError is
the exception text the invoked function would raise, if any. -/
def scheduler_run_backup_job (backupError : Option String) : RunNowResult :=
  { invokedBackup := true
  , rejected := false
  , logs :=
      match backupError with
      | none => ["Scheduled backup started", "Scheduled backup completed"]
      | some e => ["Scheduled backup started", "Error during scheduled backup: " ++ e] }

/-- BackupScheduler.run_now (scheduler.py lines 93-95): logs the manual
trigger and calls _run_backup. The method reads no scheduler state and no
indicator of a run already in flight; both are passed here only so the
absence of any check on them can be stated. -/
def run_now (s : SchedulerState) (backupInFlight : Bool) (backupError : Option String) :
    RunNowResult :=
  { scheduler_run_backup_job backupError with
      logs := "Manual backup triggered" :: (scheduler_run_backup_job backupError).logs }

/-! ## BackupOrchestrator.restore_database
(backup_orchestrator.py lines 154-180)

The file system is the list of existing paths; decompression writes the
input name with ".gz" removed, and the temporary file is removed only
after a successful restore. -/

structure RestoreEnv where
  files : List String
  decompress_ok : Bool
  restore_ok : Bool
deriving DecidableEq

structure RestoreRun where
  success : Bool
  files : List String
deriving DecidableEq

def restore_database (env : RestoreEnv) (database backup_file : String) : RestoreRun :=
  if !(env.files.contains backup_file) then
    { success := false, files := env.files }
  else if pyEndsWith backup_file ".gz" then
    if env.decompress_ok = false then { success := false, files := env.files }
    else
      if env.restore_ok = false then
        { success := false, files := env.files ++ [pyRemoveGz backup_file] }
      else
        if pyRemoveGz backup_file != backup_file
            && (env.files ++ [pyRemoveGz backup_file]).contains (pyRemoveGz backup_file) then
          { success := true
          , files := (env.files ++ [pyRemoveGz backup_file]).filter
              (fun p => !(p == pyRemoveGz backup_file)) }
        else
          { success := true, files := env.files ++ [pyRemoveGz backup_file] }
  else
    if env.restore_ok = false then { success := false, files := env.files }
    else { success := true, files := env.files }

/-! ## Theorems -/

/-- C8: verify_backup succeeds exactly when the file is present, has
nonzero size and, for a ".gz" name, the gzip read-back succeeds; so it
fails on a missing file, on a zero-byte file, and on an unreadable gzip
container, and succeeds on a valid non-empty gzip file. -/
theorem verify_backup_characterisation (fs : List (String × StoredFile)) (p : String) :
    verify_backup fs p = true ↔
      ∃ f, lookupFile fs p = some f ∧ f.size ≠ 0 ∧
        (pyEndsWith p ".gz" = true → f.gzipReadOk = true) := by
  unfold verify_backup
  cases h : lookupFile fs p with
  | none => simp
  | some f =>
    by_cases hs : f.size = 0
    · simp [hs]
    · by_cases hg : pyEndsWith p ".gz"
      · simp [hs, hg]
      · simp [hs, hg]

/-- Witness for C8: a valid non-empty gzip file verifies, a zero-byte file
does not. -/
theorem verify_backup_characterisation_witness :
    verify_backup [("bk/db1_full.sql.gz", ⟨120, true⟩)] "bk/db1_full.sql.gz" = true ∧
    verify_backup [("bk/zero.sql", ⟨0, true⟩)] "bk/zero.sql" = false :=
  ⟨(verify_backup_characterisation [("bk/db1_full.sql.gz", ⟨120, true⟩)]
      "bk/db1_full.sql.gz").mpr ⟨⟨120, true⟩, by decide, by decide, by decide⟩,
   by decide⟩

/-- C9: when the local artifact is missing, upload_backup attempts no
target and returns the one-entry mapping sending "error" to False. -/
theorem upload_backup_missing_file (cfg : StorageConfig) :
    upload_backup cfg false = { results := [("error", false)], attempted := [] } := rfl

/-- Counterexample for C1: with the scheduler running and a backup in
flight, run_now still invokes the backup function and produces no
rejection signal. -/
theorem run_now_counterexample :
    (run_now { enabled := true, running := true, interval := "daily", backup_time := "02:00" }
        true none).rejected = false ∧
    (run_now { enabled := true, running := true, interval := "daily", backup_time := "02:00" }
        true none).invokedBackup = true :=
  ⟨rfl, rfl⟩

/-- C1 (amended): run_now performs no single-flight check at all: whatever
the scheduler state and whether a run is already in flight, it logs the
manual trigger and invokes the backup function immediately; no rejection
signal exists, and an error raised by the invoked run is merely caught and
logged. -/
theorem run_now_always_executes (s : SchedulerState) (backupInFlight : Bool)
    (backupError : Option String) :
    (run_now s backupInFlight backupError).invokedBackup = true ∧
    (run_now s backupInFlight backupError).rejected = false ∧
    (run_now s backupInFlight backupError).logs.head? = some "Manual backup triggered" :=
  ⟨rfl, rfl, rfl⟩

/-- Counterexample for C6: with the unrecognized cadence "fortnightly",
start succeeds, the scheduler is marked running, and the only surfaced
sign of the bad cadence is a logged error message with no job installed. -/
theorem schedule_unknown_counterexample :
    (scheduler_start { enabled := true, running := false, interval := "fortnightly",
                       backup_time := "02:00" }).1.started = true ∧
    (scheduler_start { enabled := true, running := false, interval := "fortnightly",
                       backup_time := "02:00" }).2.running = true ∧
    (scheduler_start { enabled := true, running := false, interval := "fortnightly",
                       backup_time := "02:00" }).1.schedule =
      some (.unknownIntervalError "Unknown interval: fortnightly") := by
  refine ⟨by decide, by decide, by decide⟩

/-- C6 (amended): an unrecognized cadence string makes schedule_backups
log a descriptive error naming the interval and install no job, but no
error is raised to the caller: start still succeeds and marks the
scheduler running. -/
theorem schedule_unknown_interval_logged (s : SchedulerState)
    (hen : s.enabled = true) (hrun : s.running = false)
    (hd : s.interval ≠ "daily") (hh : s.interval ≠ "hourly")
    (hhs : pyEndsWith s.interval "hours" = false)
    (hw : s.interval ≠ "weekly") :
    schedule_backups s = .unknownIntervalError ("Unknown interval: " ++ s.interval) ∧
    (schedule_backups s).installsJob = false ∧
    (scheduler_start s).1.started = true ∧
    (scheduler_start s).2.running = true := by
  have h1 : schedule_backups s = .unknownIntervalError ("Unknown interval: " ++ s.interval) := by
    unfold schedule_backups
    simp [hen, hd, hh, hhs, hw]
  refine ⟨h1, by simp [h1, ScheduleOutcome.installsJob], ?_, ?_⟩ <;>
    simp [scheduler_start, hrun]

/-- Witness for C6 (amended) at the cadence "fortnightly". -/
theorem schedule_unknown_interval_logged_witness :
    schedule_backups { enabled := true, running := false, interval := "fortnightly",
                       backup_time := "02:00" } =
      .unknownIntervalError ("Unknown interval: " ++ "fortnightly") ∧
    (schedule_backups { enabled := true, running := false, interval := "fortnightly",
                        backup_time := "02:00" }).installsJob = false ∧
    (scheduler_start { enabled := true, running := false, interval := "fortnightly",
                       backup_time := "02:00" }).1.started = true ∧
    (scheduler_start { enabled := true, running := false, interval := "fortnightly",
                       backup_time := "02:00" }).2.running = true :=
  schedule_unknown_interval_logged _ rfl rfl (by decide) (by decide) (by decide) (by decide)

/-- C10: restoring a compressed artifact removes the decompressed
temporary file only on the success path; when the restore step fails after
a successful decompression, the call reports failure and the decompressed
file remains on disk. -/
theorem restore_keeps_temp_on_failure (env : RestoreEnv) (database backup_file : String)
    (hmem : backup_file ∈ env.files)
    (hgz : pyEndsWith backup_file ".gz" = true)
    (hdec : env.decompress_ok = true)
    (hne : pyRemoveGz backup_file ≠ backup_file) :
    (env.restore_ok = false →
      (restore_database env database backup_file).success = false ∧
      pyRemoveGz backup_file ∈ (restore_database env database backup_file).files) ∧
    (env.restore_ok = true →
      (restore_database env database backup_file).success = true ∧
      pyRemoveGz backup_file ∉ (restore_database env database backup_file).files) := by
  constructor
  · intro hro
    unfold restore_database
    simp [hmem, hgz, hdec, hro]
  · intro hro
    unfold restore_database
    simp [hmem, hgz, hdec, hro, hne, List.mem_filter]

/-- Witness for C10: restore failure after decompression leaves the
decompressed file behind. -/
theorem restore_keeps_temp_on_failure_witness :
    (restore_database ⟨["bk/db1_full.sql.gz"], true, false⟩ "db1"
        "bk/db1_full.sql.gz").success = false ∧
    pyRemoveGz "bk/db1_full.sql.gz" ∈
      (restore_database ⟨["bk/db1_full.sql.gz"], true, false⟩ "db1"
        "bk/db1_full.sql.gz").files :=
  (restore_keeps_temp_on_failure ⟨["bk/db1_full.sql.gz"], true, false⟩ "db1"
      "bk/db1_full.sql.gz" (by decide) (by decide) rfl (by decide)).1 rfl

/-- Helper: with every delete succeeding, the age pass never aborts and
removes exactly the paths of entries older than the cutoff, on top of the
removals already accumulated. -/
theorem cleanupAge_all_ok (cutoff : Int) :
    ∀ (l : List Backup) (count : Nat) (removed : List String),
      (cleanupAge cutoff (fun _ => true) l count removed).2.2 = false ∧
      ∀ p, p ∈ (cleanupAge cutoff (fun _ => true) l count removed).2.1 ↔
        p ∈ removed ∨ ∃ b ∈ l, b.created < cutoff ∧ b.path = p := by
  intro l
  induction l with
  | nil => intro count removed; simp [cleanupAge]
  | cons b rest ih =>
    intro count removed
    by_cases hb : b.created < cutoff
    · have hstep : cleanupAge cutoff (fun _ => true) (b :: rest) count removed =
          cleanupAge cutoff (fun _ => true) rest (count + 1) (b.path :: removed) := by
        simp [cleanupAge, hb]
      have h := ih (count + 1) (b.path :: removed)
      refine ⟨by rw [hstep]; exact h.1, ?_⟩
      intro p
      rw [hstep, h.2 p]
      constructor
      · rintro (hp | ⟨b2, hb2, hc2, rfl⟩)
        · rcases List.mem_cons.mp hp with rfl | hp
          · exact Or.inr ⟨b, List.mem_cons_self b rest, hb, rfl⟩
          · exact Or.inl hp
        · exact Or.inr ⟨b2, List.mem_cons_of_mem _ hb2, hc2, rfl⟩
      · rintro (hp | ⟨b2, hb2, hc2, rfl⟩)
        · exact Or.inl (List.mem_cons_of_mem _ hp)
        · rcases List.mem_cons.mp hb2 with rfl | hb2
          · exact Or.inl (List.mem_cons_self _ _)
          · exact Or.inr ⟨b2, hb2, hc2, rfl⟩
    · have hstep : cleanupAge cutoff (fun _ => true) (b :: rest) count removed =
          cleanupAge cutoff (fun _ => true) rest count removed := by
        simp [cleanupAge, hb]
      have h := ih count removed
      refine ⟨by rw [hstep]; exact h.1, ?_⟩
      intro p
      rw [hstep, h.2 p]
      constructor
      · rintro (hp | ⟨b2, hb2, hc2, rfl⟩)
        · exact Or.inl hp
        · exact Or.inr ⟨b2, List.mem_cons_of_mem _ hb2, hc2, rfl⟩
      · rintro (hp | ⟨b2, hb2, hc2, rfl⟩)
        · exact Or.inl hp
        · rcases List.mem_cons.mp hb2 with rfl | hb2
          · exact absurd hc2 hb
          · exact Or.inr ⟨b2, hb2, hc2, rfl⟩

/-- Helper: with every delete succeeding, the excess pass never aborts and
ends with the accumulated removals plus the paths of all entries it was
given. -/
theorem cleanupExcess_all_ok :
    ∀ (l : List Backup) (count : Nat) (removed : List String),
      (cleanupExcess (fun _ => true) l count removed).2.2 = false ∧
      ∀ p, p ∈ (cleanupExcess (fun _ => true) l count removed).2.1 ↔
        p ∈ removed ∨ ∃ b ∈ l, b.path = p := by
  intro l
  induction l with
  | nil => intro count removed; simp [cleanupExcess]
  | cons b rest ih =>
    intro count removed
    by_cases hb : b.path ∈ removed
    · have hstep : cleanupExcess (fun _ => true) (b :: rest) count removed =
          cleanupExcess (fun _ => true) rest count removed := by
        simp [cleanupExcess, hb]
      have h := ih count removed
      refine ⟨by rw [hstep]; exact h.1, ?_⟩
      intro p
      rw [hstep, h.2 p]
      constructor
      · rintro (hp | ⟨b2, hb2, rfl⟩)
        · exact Or.inl hp
        · exact Or.inr ⟨b2, List.mem_cons_of_mem _ hb2, rfl⟩
      · rintro (hp | ⟨b2, hb2, rfl⟩)
        · exact Or.inl hp
        · rcases List.mem_cons.mp hb2 with rfl | hb2
          · exact Or.inl hb
          · exact Or.inr ⟨b2, hb2, rfl⟩
    · have hstep : cleanupExcess (fun _ => true) (b :: rest) count removed =
          cleanupExcess (fun _ => true) rest (count + 1) (b.path :: removed) := by
        simp [cleanupExcess, hb]
      have h := ih (count + 1) (b.path :: removed)
      refine ⟨by rw [hstep]; exact h.1, ?_⟩
      intro p
      rw [hstep, h.2 p]
      constructor
      · rintro (hp | ⟨b2, hb2, rfl⟩)
        · rcases List.mem_cons.mp hp with rfl | hp
          · exact Or.inr ⟨b, List.mem_cons_self b rest, rfl⟩
          · exact Or.inl hp
        · exact Or.inr ⟨b2, List.mem_cons_of_mem _ hb2, rfl⟩
      · rintro (hp | ⟨b2, hb2, rfl⟩)
        · exact Or.inl (List.mem_cons_of_mem _ hp)
        · rcases List.mem_cons.mp hb2 with rfl | hb2
          · exact Or.inl (List.mem_cons_self _ _)
          · exact Or.inr ⟨b2, hb2, rfl⟩

/-- Helper: with every delete succeeding, a cleanup run never aborts and
removes exactly the paths of entries older than the cutoff together with
the paths of entries beyond max_backups in the sorted listing. -/
theorem cleanup_removed_char (cfg : BackupConfig) (dir : List DirEntry)
    (database : Option String) (now : Int) :
    (cleanup_old_backups cfg dir database now (fun _ => true)).aborted = false ∧
    ∀ p, p ∈ (cleanup_old_backups cfg dir database now (fun _ => true)).removed ↔
      ((∃ b ∈ list_backups cfg dir database, b.created < cutoffDate cfg now ∧ b.path = p) ∨
       (∃ b ∈ (list_backups cfg dir database).drop cfg.max_backups, b.path = p)) := by
  have hAge := cleanupAge_all_ok (cutoffDate cfg now) (list_backups cfg dir database) 0 []
  unfold cleanup_old_backups
  dsimp only
  split
  case _ c1 r1 heq =>
    rw [heq] at hAge
    simp at hAge
  case _ c1 r1 heq =>
    have hAgeMem : ∀ p, p ∈ r1 ↔
        ∃ b ∈ list_backups cfg dir database, b.created < cutoffDate cfg now ∧ b.path = p := by
      intro p
      have := hAge.2 p
      rw [heq] at this
      simpa using this
    by_cases hlen : (list_backups cfg dir database).length > cfg.max_backups
    · have hEx := cleanupExcess_all_ok
        ((list_backups cfg dir database).drop cfg.max_backups) c1 r1
      simp only [hlen, if_true]
      refine ⟨hEx.1, ?_⟩
      intro p
      rw [hEx.2 p, hAgeMem p]
    · simp only [hlen, if_false]
      refine ⟨trivial, ?_⟩
      intro p
      rw [hAgeMem p]
      have hdrop : (list_backups cfg dir database).drop cfg.max_backups = [] :=
        List.drop_eq_nil_of_le (Nat.le_of_not_lt hlen)
      simp [hdrop]

/-- C4: after a cleanup run in which every delete succeeds, the surviving
artifacts all have creation times at or after the retention cutoff, at
most max_backups artifacts survive, the removed set is exactly the union
of the age rule evictions and the beyond-max_backups evictions (the two
rules are cumulative), and the beyond-max_backups entries are the oldest
by creation time. -/
theorem cleanup_retention_invariant (cfg : BackupConfig) (dir : List DirEntry)
    (database : Option String) (now : Int) :
    (∀ b ∈ survivorsAfterCleanup cfg dir database now (fun _ => true),
        cutoffDate cfg now ≤ b.created) ∧
    (survivorsAfterCleanup cfg dir database now (fun _ => true)).length ≤ cfg.max_backups ∧
    (∀ p, p ∈ (cleanup_old_backups cfg dir database now (fun _ => true)).removed ↔
        ((∃ b ∈ list_backups cfg dir database, b.created < cutoffDate cfg now ∧ b.path = p) ∨
         (∃ b ∈ (list_backups cfg dir database).drop cfg.max_backups, b.path = p))) ∧
    (∀ b ∈ (list_backups cfg dir database).drop cfg.max_backups,
      ∀ b2 ∈ (list_backups cfg dir database).take cfg.max_backups,
        b.created ≤ b2.created) := by
  have hchar := cleanup_removed_char cfg dir database now
  have hmemsurv : ∀ b, b ∈ survivorsAfterCleanup cfg dir database now (fun _ => true) ↔
      b ∈ list_backups cfg dir database ∧
        b.path ∉ (cleanup_old_backups cfg dir database now (fun _ => true)).removed := by
    intro b
    simp [survivorsAfterCleanup, List.mem_filter]
  refine ⟨?_, ?_, hchar.2, ?_⟩
  · intro b hb
    rcases (hmemsurv b).mp hb with ⟨hbl, hbr⟩
    by_contra hlt
    push_neg at hlt
    exact hbr ((hchar.2 b.path).mpr (Or.inl ⟨b, hbl, hlt, rfl⟩))
  · have hdropnil : ((list_backups cfg dir database).drop cfg.max_backups).filter
        (fun b => decide
          (b.path ∉ (cleanup_old_backups cfg dir database now (fun _ => true)).removed)) = [] := by
      apply List.filter_eq_nil_iff.mpr
      intro b hb
      simp only [decide_eq_true_eq, not_not]
      exact (hchar.2 b.path).mpr (Or.inr ⟨b, hb, rfl⟩)
    have h1 : survivorsAfterCleanup cfg dir database now (fun _ => true) =
        ((list_backups cfg dir database).take cfg.max_backups).filter
          (fun b => decide
            (b.path ∉ (cleanup_old_backups cfg dir database now (fun _ => true)).removed)) := by
      unfold survivorsAfterCleanup
      conv_lhs => rw [← List.take_append_drop cfg.max_backups (list_backups cfg dir database)]
      rw [List.filter_append, hdropnil, List.append_nil]
    rw [h1]
    refine le_trans (List.length_filter_le _ _) ?_
    rw [List.length_take]
    exact min_le_left _ _
  · have hs : List.Sorted backupGE (list_backups cfg dir database) := by
      unfold list_backups
      exact List.sorted_insertionSort backupGE _
    intro b hb b2 hb2
    exact hs.rel_of_mem_take_of_mem_drop hb2 hb

/-- Directory used to exercise the retention invariant: one artifact 40
days old and eleven artifacts 10 to 20 days old, against retention_days 30
and max_backups 10 at time 8640000 (day 100). -/
def demoCleanupDir : List DirEntry :=
  [⟨"db1_full_t60.sql.gz", 5184000⟩,
   ⟨"db1_full_t80.sql.gz", 6912000⟩,
   ⟨"db1_full_t81.sql.gz", 6998400⟩,
   ⟨"db1_full_t82.sql.gz", 7084800⟩,
   ⟨"db1_full_t83.sql.gz", 7171200⟩,
   ⟨"db1_full_t84.sql.gz", 7257600⟩,
   ⟨"db1_full_t85.sql.gz", 7344000⟩,
   ⟨"db1_full_t86.sql.gz", 7430400⟩,
   ⟨"db1_full_t87.sql.gz", 7516800⟩,
   ⟨"db1_full_t88.sql.gz", 7603200⟩,
   ⟨"db1_full_t89.sql.gz", 7689600⟩,
   ⟨"db1_full_t90.sql.gz", 7776000⟩]

/-- Witness for C4: on the demo directory at most ten artifacts survive,
the 40-day-old artifact is evicted by the age rule, and one more (the
oldest remaining) is evicted by the count rule. -/
theorem cleanup_retention_invariant_witness :
    (survivorsAfterCleanup ⟨"bk", 30, 10⟩ demoCleanupDir none 8640000
        (fun _ => true)).length ≤ 10 ∧
    "bk/db1_full_t60.sql.gz" ∈
      (cleanup_old_backups ⟨"bk", 30, 10⟩ demoCleanupDir none 8640000 (fun _ => true)).removed ∧
    "bk/db1_full_t80.sql.gz" ∈
      (cleanup_old_backups ⟨"bk", 30, 10⟩ demoCleanupDir none 8640000 (fun _ => true)).removed := by
  refine ⟨(cleanup_retention_invariant ⟨"bk", 30, 10⟩ demoCleanupDir none 8640000).2.1, ?_, ?_⟩
  · exact ((cleanup_retention_invariant ⟨"bk", 30, 10⟩ demoCleanupDir none 8640000).2.2.1
      "bk/db1_full_t60.sql.gz").mpr
      (Or.inl ⟨⟨"db1_full_t60.sql.gz", "bk/db1_full_t60.sql.gz", 5184000⟩,
        by decide, by decide, rfl⟩)
  · exact ((cleanup_retention_invariant ⟨"bk", 30, 10⟩ demoCleanupDir none 8640000).2.2.1
      "bk/db1_full_t80.sql.gz").mpr
      (Or.inr ⟨⟨"db1_full_t80.sql.gz", "bk/db1_full_t80.sql.gz", 6912000⟩, by decide, rfl⟩)

/-- C2: when connection test, dump, compression (when enabled) and
verification all succeed, the run reports success regardless of the
per-target upload outcomes, and each enabled target has its own outcome
recorded in the storage mapping of the result — so no target failure fails
the job and no target failure prevents the other targets from being
attempted and recorded. -/
theorem upload_failure_nonfatal (env : PipelineEnv) (database : String)
    (h1 : env.db_connected = true) (h2 : env.dump_ok = true)
    (h3 : env.compression = true → env.compress_result.isSome)
    (h4 : env.verify_ok = true) (h5 : env.backup_exists = true) :
    (backup_single_database env database).success = true ∧
    (env.storage.localT.enabled = true →
      ("local", env.storage.localT.uploadOk) ∈
        storageOutcomes (backup_single_database env database)) ∧
    (env.storage.ftp.enabled = true →
      ("ftp", env.storage.ftp.uploadOk) ∈
        storageOutcomes (backup_single_database env database)) ∧
    (env.storage.sftp.enabled = true →
      ("sftp", env.storage.sftp.uploadOk) ∈
        storageOutcomes (backup_single_database env database)) := by
  have hcomp : (env.compression && env.compress_result.isNone) = false := by
    cases hc : env.compression with
    | false => simp
    | true =>
      obtain ⟨x, hx⟩ := Option.isSome_iff_exists.mp (h3 hc)
      simp [hx]
  have hso : storageOutcomes (backup_single_database env database) =
      (upload_backup env.storage env.backup_exists).results ++ gdriveEntry env := by
    simp [backup_single_database, h1, h2, hcomp, h4, storageOutcomes]
  refine ⟨by simp [backup_single_database, h1, h2, hcomp, h4], ?_, ?_, ?_⟩
  · intro ht
    rw [hso]
    simp [upload_backup, h5, ht, List.mem_append]
  · intro ht
    rw [hso]
    simp [upload_backup, h5, ht, List.mem_append]
  · intro ht
    rw [hso]
    simp [upload_backup, h5, ht, List.mem_append]

/-- Environment used by the pipeline witnesses: every stage succeeds, all
three targets are enabled, and the ftp upload fails. -/
def demoEnvFtpFail : PipelineEnv :=
  { db_connected := true
  , dump_ok := true
  , compression := true
  , compress_result := some "bk/db1_full.sql.gz"
  , verify_ok := true
  , backup_exists := true
  , storage :=
      { localT := { enabled := true, uploadOk := true }
      , ftp := { enabled := true, uploadOk := false }
      , sftp := { enabled := true, uploadOk := true } }
  , gdrive_enabled := false
  , gdrive_raises := false
  , gdrive_ok := false
  , removed_count := 2
  , size_mb := 5
  , duration := 7 }

/-- Witness for C2: three enabled targets with the second failing still
yield an overall success, with every per-target outcome recorded. -/
theorem upload_failure_nonfatal_witness :
    (backup_single_database demoEnvFtpFail "db1").success = true ∧
    ("local", true) ∈ storageOutcomes (backup_single_database demoEnvFtpFail "db1") ∧
    ("ftp", false) ∈ storageOutcomes (backup_single_database demoEnvFtpFail "db1") ∧
    ("sftp", true) ∈ storageOutcomes (backup_single_database demoEnvFtpFail "db1") := by
  have h := upload_failure_nonfatal demoEnvFtpFail "db1" rfl rfl (fun _ => rfl) rfl rfl
  exact ⟨h.1, h.2.1 rfl, h.2.2.1 rfl, h.2.2.2 rfl⟩

/-- C3: when any fatal stage fails (connection test, dump, compression
while enabled, or verification), the run reports failure, the notice sent
is a failure notification for that database carrying a non-empty error
text and the elapsed duration, the upload and cleanup stages are skipped,
and the notify stage still happens. -/
theorem stage_error_fails_and_notifies (env : PipelineEnv) (database : String)
    (h : env.db_connected = false ∨ env.dump_ok = false ∨
        (env.compression = true ∧ env.compress_result = none) ∨ env.verify_ok = false) :
    (backup_single_database env database).success = false ∧
    (∃ msg, msg ≠ "" ∧
      (backup_single_database env database).notice = .failed database msg env.duration) ∧
    Stage.uploading ∉ (backup_single_database env database).stages ∧
    Stage.cleaning ∉ (backup_single_database env database).stages ∧
    Stage.notifying ∈ (backup_single_database env database).stages := by
  by_cases h1 : env.db_connected = false
  · refine ⟨?_, ⟨"Database connection failed", by decide, ?_⟩, ?_, ?_, ?_⟩ <;>
      simp [backup_single_database, failRun, h1]
  · by_cases h2 : env.dump_ok = false
    · refine ⟨?_, ⟨"Failed to create database dump", by decide, ?_⟩, ?_, ?_, ?_⟩ <;>
        simp [backup_single_database, failRun, h1, h2]
    · by_cases h3 : (env.compression && env.compress_result.isNone) = true
      · refine ⟨?_, ⟨"Compression failed", by decide, ?_⟩, ?_, ?_, ?_⟩ <;>
          simp [backup_single_database, failRun, h1, h2, h3]
      · have h4 : env.verify_ok = false := by
          rcases h with hc | hd | ⟨hk, hr⟩ | hv
          · exact absurd hc h1
          · exact absurd hd h2
          · exact absurd (by simp [hk, hr]) h3
          · exact hv
        cases hk : env.compression with
        | false =>
          refine ⟨?_, ⟨"Backup verification failed", by decide, ?_⟩, ?_, ?_, ?_⟩ <;>
            simp [backup_single_database, failRun, h1, h2, h4, hk]
        | true =>
          have hres : ¬ env.compress_result = none := by
            intro hn
            exact h3 (by rw [hk, hn]; rfl)
          refine ⟨?_, ⟨"Backup verification failed", by decide, ?_⟩, ?_, ?_, ?_⟩ <;>
            simp [backup_single_database, failRun, h1, h2, h4, hk, hres]

/-- Environment used by the failure witness: verification fails. -/
def demoEnvVerifyFail : PipelineEnv :=
  { demoEnvFtpFail with verify_ok := false }

/-- Witness for C3: a verification failure produces a failed result with a
failure notification carrying the error text and the duration, skipping
upload and cleanup but not notification. -/
theorem stage_error_fails_and_notifies_witness :
    (backup_single_database demoEnvVerifyFail "db1").success = false ∧
    (∃ msg, msg ≠ "" ∧
      (backup_single_database demoEnvVerifyFail "db1").notice =
        .failed "db1" msg demoEnvVerifyFail.duration) ∧
    Stage.uploading ∉ (backup_single_database demoEnvVerifyFail "db1").stages ∧
    Stage.cleaning ∉ (backup_single_database demoEnvVerifyFail "db1").stages ∧
    Stage.notifying ∈ (backup_single_database demoEnvVerifyFail "db1").stages :=
  stage_error_fails_and_notifies demoEnvVerifyFail "db1" (Or.inr (Or.inr (Or.inr rfl)))

/-- Helper: reading a dict after an insertion sees the inserted value at
its key and the previous content elsewhere. -/
theorem pyDictGet_map_replace (k : String) (v : DbResult) :
    ∀ (m : List (String × DbResult)) (q : String),
      pyDictGet (m.map (fun p => if p.1 = k then (k, v) else p)) q =
        if q = k then (if m.any (fun p => decide (p.1 = k)) then some v else none)
        else pyDictGet m q := by
  intro m
  induction m with
  | nil => intro q; simp [pyDictGet]
  | cons p m ih =>
    intro q
    by_cases hp : p.1 = k
    · by_cases hq : q = k
      · subst hq
        rw [List.map_cons, if_pos hp]
        simp [pyDictGet, List.any_cons, hp]
      · rw [List.map_cons, if_pos hp]
        have hqp : ¬ q = p.1 := by rw [hp]; exact hq
        simp only [pyDictGet]
        rw [if_neg hq, if_neg hq, ih q, if_neg hq, if_neg hqp]
    · by_cases hq : q = k
      · subst hq
        rw [List.map_cons, if_neg hp]
        have hqp : ¬ q = p.1 := fun h => hp h.symm
        have hdec : decide (p.1 = q) = false := decide_eq_false hp
        simp [pyDictGet, List.any_cons, hqp, ih q]
        rw [hdec, Bool.false_or]
      · rw [List.map_cons, if_neg hp]
        simp only [pyDictGet]
        rw [if_neg hq]
        by_cases hqp : q = p.1
        · rw [if_pos hqp, if_pos hqp]
        · rw [if_neg hqp, if_neg hqp, ih q, if_neg hq]

/-- Helper: reading a dict after appending one entry. -/
theorem pyDictGet_append_single (k : String) (v : DbResult) :
    ∀ (m : List (String × DbResult)) (q : String),
      pyDictGet (m ++ [(k, v)]) q =
        match pyDictGet m q with
        | some w => some w
        | none => if q = k then some v else none := by
  intro m
  induction m with
  | nil => intro q; simp [pyDictGet]
  | cons p m ih =>
    intro q
    by_cases hqp : q = p.1
    · simp [pyDictGet, hqp]
    · simp only [List.cons_append, pyDictGet, if_neg hqp]
      exact ih q

/-- Helper: a key matching no entry reads back as absent. -/
theorem pyDictGet_none_of_not_any (k : String) :
    ∀ (m : List (String × DbResult)),
      m.any (fun p => decide (p.1 = k)) = false → pyDictGet m k = none := by
  intro m
  induction m with
  | nil => intro _; rfl
  | cons p m ih =>
    intro h
    rw [List.any_cons] at h
    rcases Bool.or_eq_false_iff.mp h with ⟨h1, h2⟩
    have hp : ¬ k = p.1 := by
      intro hk
      simp [hk] at h1
    simp only [pyDictGet, if_neg hp]
    exact ih h2

/-- Helper: dict insertion semantics, read back through pyDictGet. -/
theorem pyDictGet_dictInsert (m : List (String × DbResult)) (k : String) (v : DbResult)
    (q : String) :
    pyDictGet (dictInsert m k v) q = if q = k then some v else pyDictGet m q := by
  unfold dictInsert
  by_cases hany : m.any (fun p => decide (p.1 = k)) = true
  · rw [if_pos hany, pyDictGet_map_replace, hany]
    by_cases hq : q = k
    · rw [if_pos hq, if_pos hq]; rfl
    · rw [if_neg hq, if_neg hq]
  · rw [if_neg hany, pyDictGet_append_single]
    by_cases hq : q = k
    · subst hq
      rw [pyDictGet_none_of_not_any q m (Bool.eq_false_iff.mpr hany)]
    · cases hm : pyDictGet m q with
      | some w => simp [hq]
      | none => simp [hq]

/-- Helper: the run loop leaves keys outside the database list untouched. -/
theorem pyDictGet_run_loop_not_mem (envOf : String → PipelineEnv) :
    ∀ (dbs : List String) (acc : List (String × DbResult)) (q : String), q ∉ dbs →
      pyDictGet (run_backup_loop envOf dbs acc) q = pyDictGet acc q := by
  intro dbs
  induction dbs with
  | nil => intro acc q _; rfl
  | cons db rest ih =>
    intro acc q hq
    have hqd : ¬ q = db := fun h => hq (h ▸ List.mem_cons_self db rest)
    have hqr : q ∉ rest := fun h => hq (List.mem_cons_of_mem _ h)
    show pyDictGet (run_backup_loop envOf rest (dictInsert acc db (mkDbResult envOf db))) q =
      pyDictGet acc q
    rw [ih _ q hqr, pyDictGet_dictInsert, if_neg hqd]

/-- Helper: after the run loop, every requested database reads back as its
own result. -/
theorem pyDictGet_run_loop_mem (envOf : String → PipelineEnv) :
    ∀ (dbs : List String) (acc : List (String × DbResult)) (q : String), q ∈ dbs →
      pyDictGet (run_backup_loop envOf dbs acc) q = some (mkDbResult envOf q) := by
  intro dbs
  induction dbs with
  | nil => intro acc q h; exact absurd h (List.not_mem_nil q)
  | cons db rest ih =>
    intro acc q hq
    by_cases hqr : q ∈ rest
    · exact ih _ q hqr
    · have hqd : q = db := by
        rcases List.mem_cons.mp hq with h | h
        · exact h
        · exact absurd h hqr
      subst hqd
      show pyDictGet (run_backup_loop envOf rest (dictInsert acc q (mkDbResult envOf q))) q =
        some (mkDbResult envOf q)
      rw [pyDictGet_run_loop_not_mem envOf rest _ q hqr, pyDictGet_dictInsert, if_pos rfl]

/-- C7: run_backup on the empty list returns the empty mapping without
error; on any list it returns a mapping holding exactly one result per
requested database (and nothing else), each carrying that database's own
pipeline outcome — so no single failure aborts the batch. -/
theorem run_backup_per_database (envOf : String → PipelineEnv) (databases : List String) :
    run_backup envOf [] = [] ∧
    (∀ db ∈ databases,
      pyDictGet (run_backup envOf databases) db =
        some { status := if (backup_single_database (envOf db) db).success
                         then "success" else "error"
             , success := (backup_single_database (envOf db) db).success
             , database := db }) ∧
    (∀ q, q ∉ databases → pyDictGet (run_backup envOf databases) q = none) := by
  refine ⟨rfl, ?_, ?_⟩
  · intro db hdb
    cases databases with
    | nil => exact absurd hdb (List.not_mem_nil db)
    | cons d rest =>
      show pyDictGet (run_backup_loop envOf (d :: rest) []) db = _
      exact pyDictGet_run_loop_mem envOf (d :: rest) [] db hdb
  · intro q hq
    cases databases with
    | nil => rfl
    | cons d rest =>
      show pyDictGet (run_backup_loop envOf (d :: rest) []) q = none
      rw [pyDictGet_run_loop_not_mem envOf (d :: rest) [] q hq]
      rfl

/-- Environment family for the batch witness: db2 fails verification,
every other database succeeds. -/
def demoRunEnvOf : String → PipelineEnv := fun d =>
  if d = "db2" then demoEnvVerifyFail else demoEnvFtpFail

/-- Witness for C7: a two-database batch in which db2 fails still returns
one result per database, db1 succeeding, db2 failing, and no entry for a
database that was not requested; the empty batch returns the empty
mapping. -/
theorem run_backup_per_database_witness :
    run_backup demoRunEnvOf [] = [] ∧
    pyDictGet (run_backup demoRunEnvOf ["db1", "db2"]) "db1" =
      some { status := "success", success := true, database := "db1" } ∧
    pyDictGet (run_backup demoRunEnvOf ["db1", "db2"]) "db2" =
      some { status := "error", success := false, database := "db2" } ∧
    pyDictGet (run_backup demoRunEnvOf ["db1", "db2"]) "db3" = none := by
  have h := run_backup_per_database demoRunEnvOf ["db1", "db2"]
  refine ⟨h.1, ?_, ?_, h.2.2 "db3" (by decide)⟩
  · rw [h.2.1 "db1" (by decide)]
    rfl
  · rw [h.2.1 "db2" (by decide)]
    rfl
